import Mathlib

/-!
Verification development for the gizmo field-control and telemetry layer.

The Go sources are embedded shallowly:

* `pkg/metrics` (struct `Metrics`, `New`, `ResetRobotMetrics`,
  `mqttCallback`, `MQTTInit`, `fCast`): a Prometheus `GaugeVec` labeled
  only by `team` is modelled as an association list from the team label
  to the gauge value; `With(...).Set(v)` is an insert-overwrite
  (`upsert`).  Gauge values are modelled as `Rat`: every value the code
  ever writes is `float64(x)` for an `int32` `x`, or `fCast` of a bool,
  and all of those are integers that `float64` represents exactly, so
  the rational model is exact.
* `internal/gamepad` (struct `JSController`, `BindController`,
  `GetState`, `mapRange`): the joystick handle returned by
  `joystick.Open` and the result of `js.Read()` are abstracted as data
  (`Joystick`, `JState`); the `int` arithmetic of `mapRange` uses
  `Int.div`, which truncates toward zero exactly as Go `/` does.
* the `field remap` cmdlet (`fieldRemapCmdRun`): the interactive answers
  are a list of (quadrant, team) pairs and the Go map writes
  `nnMap[t] = f` are the same insert-overwrite `upsert`.

I/O boundaries (the MQTT client, `json.Unmarshal`, `joystick.Open`,
`js.Read`) enter as explicit outcome parameters; everything after the
boundary is translated statement by statement from the source.
-/

namespace Gizmo

/-- Insert-overwrite on an association list: the model of a Go map
assignment `m[k] = v` (and of `GaugeVec.With(labels).Set(v)`). -/
def upsert (k : String) (v : α) : List (String × α) → List (String × α)
  | [] => [(k, v)]
  | p :: rest => if p.1 = k then (k, v) :: rest else p :: upsert k v rest

/-- Lookup in an association list: the model of a Go map read `m[k]`. -/
def lookup (k : String) : List (String × α) → Option α
  | [] => none
  | p :: rest => if p.1 = k then some p.2 else lookup k rest

/-- Number of entries of the association list carrying key `k`. -/
def countKey (k : String) : List (String × α) → Nat
  | [] => 0
  | p :: rest => (if p.1 = k then 1 else 0) + countKey k rest

/-- The `report` struct of `pkg/metrics/type.go`, field for field.  The
Go fields are `int32`; no arithmetic is ever done on them, they are only
cast with `float64(...)`, which is exact on all of `int32`, so `Int`
carries them faithfully. -/
structure report where
  controlFrameAge : Int
  controlFramesReceived : Int
  vBat : Int
  watchdogRemaining : Int
  watchdogOK : Bool
  rssi : Int
  wifiReconnects : Int
  pwrBoard : Bool
  pwrPico : Bool
  pwrGpio : Bool
  pwrMainA : Bool
  pwrMainB : Bool
deriving DecidableEq

/-- The Go zero value of `report`: what `var stats report` declares and
what the variable still holds when `json.Unmarshal` rejects a malformed
payload without decoding anything. -/
def zeroReport : report :=
  { controlFrameAge := 0, controlFramesReceived := 0, vBat := 0,
    watchdogRemaining := 0, watchdogOK := false, rssi := 0,
    wifiReconnects := 0, pwrBoard := false, pwrPico := false,
    pwrGpio := false, pwrMainA := false, pwrMainB := false }

/-- One Prometheus gauge family labeled only by `team`: team label to
gauge value. -/
def GaugeMap : Type := List (String × Rat)

/-- The nine `GaugeVec` families that `New` constructs and registers
(`robotRSSI` through `robotWatchdogLifetime`); this is the whole of the
registry's mutable state. -/
structure MetricsState where
  robotRSSI : GaugeMap
  robotVBat : GaugeMap
  robotPowerBoard : GaugeMap
  robotPowerPico : GaugeMap
  robotPowerGpio : GaugeMap
  robotPowerBusA : GaugeMap
  robotPowerBusB : GaugeMap
  robotWatchdogOK : GaugeMap
  robotWatchdogLifetime : GaugeMap

/-- The state of the registry right after `New`: every family is empty
(a fresh `GaugeVec` has no label sets). -/
def emptyMetrics : MetricsState :=
  { robotRSSI := [], robotVBat := [], robotPowerBoard := [],
    robotPowerPico := [], robotPowerGpio := [], robotPowerBusA := [],
    robotPowerBusB := [], robotWatchdogOK := [],
    robotWatchdogLifetime := [] }

/-- `fCast` of `pkg/metrics/mqtt.go`: booleans become the float 1 or 0. -/
def fCast (b : Bool) : Rat :=
  if b then 1 else 0

/-- The nine `Set` lines of `Metrics.mqttCallback` (the sink-write stage
of the handler): each family upserts the value for the `team` label. -/
def observeAll (m : MetricsState) (teamNum : String) (stats : report) :
    MetricsState :=
  { robotRSSI := upsert teamNum ((stats.rssi : Rat)) m.robotRSSI,
    robotVBat := upsert teamNum ((stats.vBat : Rat)) m.robotVBat,
    robotWatchdogLifetime :=
      upsert teamNum ((stats.watchdogRemaining : Rat)) m.robotWatchdogLifetime,
    robotPowerBoard := upsert teamNum (fCast stats.pwrBoard) m.robotPowerBoard,
    robotPowerPico := upsert teamNum (fCast stats.pwrPico) m.robotPowerPico,
    robotPowerGpio := upsert teamNum (fCast stats.pwrGpio) m.robotPowerGpio,
    robotPowerBusA := upsert teamNum (fCast stats.pwrMainA) m.robotPowerBusA,
    robotPowerBusB := upsert teamNum (fCast stats.pwrMainB) m.robotPowerBusB,
    robotWatchdogOK := upsert teamNum (fCast stats.watchdogOK) m.robotWatchdogOK }

/-- `Metrics.ResetRobotMetrics`: `Reset()` on each of the nine families
empties every label set. -/
def resetRobotMetrics (_m : MetricsState) : MetricsState :=
  { robotRSSI := [], robotVBat := [], robotPowerBoard := [],
    robotPowerPico := [], robotPowerGpio := [], robotPowerBusA := [],
    robotPowerBusB := [], robotWatchdogOK := [],
    robotWatchdogLifetime := [] }

/-- Outcome of `json.Unmarshal(msg.Payload(), &stats)`: either the
payload decodes to a full report, or it is malformed and the call
returns an error leaving `stats` at its zero value. -/
inductive UnmarshalResult where
  | ok (r : report)
  | err
deriving DecidableEq

/-- The report the handler continues with after the unmarshal line:
Go does not return on error, so the zero value flows onward. -/
def payloadReport : UnmarshalResult → report
  | .ok r => r
  | .err => zeroReport

/-- Go `strings.Split(s, sep)` for the one-character separator `/`,
on the character list of the topic: splits around every slash; the
result is never empty (`Split` of the empty string is `[""]`). -/
def splitSlash : List Char → List (List Char)
  | [] => [[]]
  | c :: rest =>
    match splitSlash rest with
    | [] => [[]]
    | s :: ss => if c = '/' then [] :: s :: ss else (c :: s) :: ss

/-- `strings.Split(msg.Topic(), "/")[1]` — `none` when the index-1
access would panic because the topic has fewer than two segments. -/
def teamSegment (topic : List Char) : Option (List Char) :=
  (splitSlash topic).get? 1

/-- `Metrics.mqttCallback`: extract the team from the topic (a panic of
the slice index is `none`), unmarshal the payload, and write all nine
gauges.  Note the source falls through after a failed unmarshal: the
sink is written unconditionally. -/
def mqttCallback (m : MetricsState) (topic : List Char)
    (payload : UnmarshalResult) : Option MetricsState :=
  match teamSegment topic with
  | none => none
  | some teamChars =>
    some (observeAll m (String.mk teamChars) (payloadReport payload))

/-- `prometheus.BuildFQName`: joins the non-empty components of
namespace, subsystem and name with underscores. -/
def buildFQName (ns sub nm : String) : String :=
  if nm = "" then ""
  else if ns ≠ "" ∧ sub ≠ "" then ns ++ "_" ++ sub ++ "_" ++ nm
  else if ns ≠ "" then ns ++ "_" ++ nm
  else if sub ≠ "" then sub ++ "_" ++ nm
  else nm

/-- The gauge families that `New` builds and registers, in
`MustRegister` order, each with its full Prometheus name (namespace
`best`, subsystem `robot`) and its label names. -/
def newFamilies : List (String × List String) :=
  [ (buildFQName ("best") ("robot") ("rssi"), ["team"]),
    (buildFQName ("best") ("robot") ("battery_voltage"), ["team"]),
    (buildFQName ("best") ("robot") ("power_board"), ["team"]),
    (buildFQName ("best") ("robot") ("power_pico"), ["team"]),
    (buildFQName ("best") ("robot") ("power_gpio"), ["team"]),
    (buildFQName ("best") ("robot") ("power_bus_a"), ["team"]),
    (buildFQName ("best") ("robot") ("power_bus_b"), ["team"]),
    (buildFQName ("best") ("robot") ("watchdog_ok"), ["team"]),
    (buildFQName ("best") ("robot") ("watchdog_remaining_milliseconds"), ["team"]) ]

/-- The paho `ClientOptions` fields that `MQTTInit` touches.  Durations
are in seconds. -/
structure ClientOptions where
  brokers : List String
  autoReconnect : Bool
  clientID : String
  connectRetry : Bool
  connectTimeoutSec : Nat
  connectRetryIntervalSec : Nat
deriving DecidableEq

/-- `mqtt.NewClientOptions()` with the library's documented defaults for
the fields this code touches: no brokers, auto-reconnect on,
connect-retry off, 30-second timeouts. -/
def newClientOptions : ClientOptions :=
  { brokers := [], autoReconnect := true, clientID := "",
    connectRetry := false, connectTimeoutSec := 30,
    connectRetryIntervalSec := 30 }

def ClientOptions.addBroker (o : ClientOptions) (b : String) : ClientOptions :=
  { o with brokers := o.brokers ++ [b] }

def ClientOptions.setAutoReconnect (o : ClientOptions) (b : Bool) : ClientOptions :=
  { o with autoReconnect := b }

def ClientOptions.setClientID (o : ClientOptions) (c : String) : ClientOptions :=
  { o with clientID := c }

def ClientOptions.setConnectRetry (o : ClientOptions) (b : Bool) : ClientOptions :=
  { o with connectRetry := b }

def ClientOptions.setConnectTimeoutSec (o : ClientOptions) (n : Nat) : ClientOptions :=
  { o with connectTimeoutSec := n }

def ClientOptions.setConnectRetryIntervalSec (o : ClientOptions) (n : Nat) : ClientOptions :=
  { o with connectRetryIntervalSec := n }

/-- The option chain at the top of `Metrics.MQTTInit`, call for call. -/
def mqttInitOptions (broker : String) : ClientOptions :=
  (((((newClientOptions.addBroker broker).setAutoReconnect
    true).setClientID ("self-metrics")).setConnectRetry
    true).setConnectTimeoutSec 1).setConnectRetryIntervalSec 1

/-- The two ways `MQTTInit` returns a non-nil error. -/
inductive InitErr where
  | connectFailed
  | subscribeFailed
deriving DecidableEq

/-- `backoff.Retry(subFunc, backoff.NewExponentialBackOff())`: the list
holds the outcome of each `client.Subscribe` attempt the policy makes
before its elapsed-time bound; `Retry` stops at the first success and
reports overall failure when the attempts are exhausted. -/
def retrySubscribe : List Bool → Bool
  | [] => false
  | b :: rest => b || retrySubscribe rest

/-- What one `MQTTInit` call produced: the client options it
configured, the error returned to the caller, and how many times it
signalled the startup `WaitGroup` via `wg.Done()`. -/
structure InitOutcome where
  opts : ClientOptions
  errOut : Option InitErr
  doneSignals : Nat
deriving DecidableEq

/-- `Metrics.MQTTInit` with the transport outcomes made explicit:
`connectOK` is whether the first `client.Connect()` token carries no
error; `subAttempts` are the subscribe-attempt outcomes fed to the
backoff retry.  A connect error returns immediately; a permanent
subscribe error returns after the retries; only the success path
reaches `wg.Done()`, exactly once. -/
def MQTTInit (broker : String) (connectOK : Bool)
    (subAttempts : List Bool) : InitOutcome :=
  let opts := mqttInitOptions broker
  if connectOK = false then
    { opts := opts, errOut := some InitErr.connectFailed, doneSignals := 0 }
  else if retrySubscribe subAttempts then
    { opts := opts, errOut := none, doneSignals := 1 }
  else
    { opts := opts, errOut := some InitErr.subscribeFailed, doneSignals := 0 }

/-- A `RunRobotMetrics`-style stream of decoded observations applied to
a fresh registry: the state after a sequence of callback sink-writes. -/
def applyObserves (calls : List (String × report)) : MetricsState :=
  calls.foldl (fun st c => observeAll st c.1 c.2) emptyMetrics

/-- The telemetry report of spec scenario 3: RSSI 80, VBat 1250,
watchdog alive with 500 ms remaining, board, GPIO and bus A powered. -/
def sampleReport : report :=
  { controlFrameAge := 0, controlFramesReceived := 0, vBat := 1250,
    watchdogRemaining := 500, watchdogOK := true, rssi := 80,
    wifiReconnects := 0, pwrBoard := true, pwrPico := false,
    pwrGpio := true, pwrMainA := true, pwrMainB := false }

/-- The joystick state returned by `js.Read()`: `AxisData` is a slice
with one entry per axis (total as a function — `Read` fills an entry
for every axis index of the device), `Buttons` a bit mask. -/
structure JState where
  axisData : Nat → Int
  buttons : Nat

/-- A handle from `joystick.Open`: its advertised axis and button
counts, and what its next `Read()` yields (`none` = read error). -/
structure Joystick where
  axisCount : Nat
  buttonCount : Nat
  readResult : Option JState

/-- The `Values` struct of the gamepad package, field for field. -/
structure Values where
  AxisLX : Int
  AxisLY : Int
  AxisRX : Int
  AxisRY : Int
  AxisDX : Int
  AxisDY : Int
  ButtonBack : Bool
  ButtonStart : Bool
  ButtonLeftStick : Bool
  ButtonRightStick : Bool
  ButtonX : Bool
  ButtonY : Bool
  ButtonA : Bool
  ButtonB : Bool
  ButtonLShoulder : Bool
  ButtonRShoulder : Bool
  ButtonLT : Bool
  ButtonRT : Bool
deriving DecidableEq

/-- `mapRange` of the gamepad package; `Int.tdiv` truncates toward zero
exactly like Go integer division. -/
def mapRange (x xMin xMax oMin oMax : Int) : Int :=
  Int.tdiv ((x - xMin) * (oMax - oMin)) (xMax - xMin) + oMin

/-- The `Values` literal built in `JSController.GetState` from one read:
six axes through `mapRange`, twelve buttons by bit tests. -/
def valuesOf (jinfo : JState) : Values :=
  { AxisLX := mapRange (jinfo.axisData 0) (-32768) 32768 0 255,
    AxisLY := mapRange (jinfo.axisData 1) (-32768) 32768 0 255,
    AxisRX := mapRange (jinfo.axisData 2) (-32768) 32768 0 255,
    AxisRY := mapRange (jinfo.axisData 3) (-32768) 32768 0 255,
    AxisDX := mapRange (jinfo.axisData 4) (-32768) 32768 0 255,
    AxisDY := mapRange (jinfo.axisData 5) (-32768) 32768 0 255,
    ButtonBack := (jinfo.buttons &&& (1 <<< 8)) != 0,
    ButtonStart := (jinfo.buttons &&& (1 <<< 9)) != 0,
    ButtonLeftStick := (jinfo.buttons &&& (1 <<< 10)) != 0,
    ButtonRightStick := (jinfo.buttons &&& (1 <<< 11)) != 0,
    ButtonX := (jinfo.buttons &&& (1 <<< 0)) != 0,
    ButtonY := (jinfo.buttons &&& (1 <<< 3)) != 0,
    ButtonA := (jinfo.buttons &&& (1 <<< 1)) != 0,
    ButtonB := (jinfo.buttons &&& (1 <<< 2)) != 0,
    ButtonLShoulder := (jinfo.buttons &&& (1 <<< 4)) != 0,
    ButtonRShoulder := (jinfo.buttons &&& (1 <<< 5)) != 0,
    ButtonLT := (jinfo.buttons &&& (1 <<< 6)) != 0,
    ButtonRT := (jinfo.buttons &&& (1 <<< 7)) != 0 }

/-- `JSController`: the map from field name to bound joystick handle
(logger and lock dropped — single-threaded model). -/
structure JSController where
  controllers : List (String × Joystick)

/-- `NewJSController` before options: an empty controller map. -/
def NewJSController : JSController :=
  { controllers := [] }

/-- The error results of `JSController.GetState`: the distinguished
`ErrNoSuchField`, or the error from `js.Read()`. -/
inductive GSErr where
  | noSuchField
  | readFailed
deriving DecidableEq

/-- `JSController.GetState`: map lookup, `ErrNoSuchField` when absent,
then one read converted to `Values`. -/
def JSController.GetState (j : JSController) (fieldID : String) :
    Except GSErr Values :=
  match lookup fieldID j.controllers with
  | none => Except.error GSErr.noSuchField
  | some js =>
    match js.readResult with
    | none => Except.error GSErr.readFailed
    | some jinfo => Except.ok (valuesOf jinfo)

/-- The error results of `JSController.BindController`: the error from
`joystick.Open`, or the "bad joystick config" count validation error. -/
inductive BindErr where
  | openFailed
  | badConfig
deriving DecidableEq

/-- `JSController.BindController` with the `joystick.Open(id)` outcome
explicit: on open success the handle is stored under `name` FIRST, and
only then are the axis/button counts validated, so the validation error
leaves the handle in the map. -/
def JSController.BindController (j : JSController) (name : String)
    (openResult : Option Joystick) : JSController × Option BindErr :=
  match openResult with
  | none => (j, some BindErr.openFailed)
  | some js =>
    let j2 : JSController := { j with controllers := upsert name js j.controllers }
    if js.axisCount != 6 || js.buttonCount != 12 then
      (j2, some BindErr.badConfig)
    else
      (j2, none)

/-- One iteration of the inversion loop of `fieldRemapCmdRun`:
`ft` is a (quadrant, team) answer and `nnMap[t] = f` keys by team. -/
def remapStep (nnMap : List (String × String)) (ft : String × String) :
    List (String × String) :=
  upsert ft.2 ft.1 nnMap

/-- The inversion loop of `fieldRemapCmdRun`: the survey answers are
(quadrant, team) pairs in the order Go's map range delivers them;
`nnMap` starts empty and is posted afterwards. -/
def invertAnswers (answers : List (String × String)) :
    List (String × String) :=
  answers.foldl remapStep []

/-- The topic `robot/<teamID>/stats` as a character list. -/
def topicFor (teamID : List Char) : List Char :=
  String.toList ("robot") ++ '/' :: (teamID ++ '/' :: String.toList ("stats"))

theorem lookup_upsert_self (k : String) (v : α) (m : List (String × α)) :
    lookup k (upsert k v m) = some v := by
  induction m with
  | nil => simp [upsert, lookup]
  | cons p rest ih =>
    by_cases h : p.1 = k <;> simp [upsert, lookup, h, ih]

theorem lookup_upsert_ne (k k2 : String) (v : α) (m : List (String × α))
    (h : k2 ≠ k) : lookup k2 (upsert k v m) = lookup k2 m := by
  have hk : ¬ (k = k2) := fun hh => h hh.symm
  induction m with
  | nil => simp [upsert, lookup, hk]
  | cons p rest ih =>
    by_cases hp : p.1 = k
    · have hpk2 : ¬ (p.1 = k2) := by rw [hp]; exact hk
      simp [upsert, lookup, hp, hk, hpk2]
    · by_cases hp2 : p.1 = k2 <;> simp [upsert, lookup, hp, hp2, ih, h]

theorem countKey_upsert_self (k : String) (v : α) (m : List (String × α))
    (h : countKey k m ≤ 1) : countKey k (upsert k v m) = 1 := by
  induction m with
  | nil => simp [upsert, countKey]
  | cons p rest ih =>
    by_cases hp : p.1 = k
    · have : countKey k rest = 0 := by
        have := h
        simp [countKey, hp] at this
        omega
      simp [upsert, countKey, hp, this]
    · have h2 : countKey k rest ≤ 1 := by
        have := h
        simpa [countKey, hp] using this
      simp [upsert, countKey, hp, ih h2]

theorem countKey_upsert_ne (k k2 : String) (v : α) (m : List (String × α))
    (h : k2 ≠ k) : countKey k2 (upsert k v m) = countKey k2 m := by
  have hk : ¬ (k = k2) := fun hh => h hh.symm
  induction m with
  | nil => simp [upsert, countKey, hk]
  | cons p rest ih =>
    by_cases hp : p.1 = k
    · have hpk2 : ¬ (p.1 = k2) := by rw [hp]; exact hk
      simp [upsert, countKey, hp, hpk2, hk]
    · simp [upsert, countKey, hp, ih]

theorem countKey_pos_of_mem (k : String) (v : α) (m : List (String × α))
    (h : (k, v) ∈ m) : 1 ≤ countKey k m := by
  induction m with
  | nil => simp at h
  | cons p rest ih =>
    rcases List.mem_cons.mp h with h1 | h1
    · rw [← h1]
      simp only [countKey]
      simp
    · have hr := ih h1
      by_cases hp : p.1 = k
      · simp only [countKey, hp, if_pos rfl]
        omega
      · simp only [countKey, hp, if_neg hp]
        omega

theorem countKey_upsert_le_one (k k2 : String) (v : α)
    (m : List (String × α)) (h : ∀ k3, countKey k3 m ≤ 1) :
    countKey k2 (upsert k v m) ≤ 1 := by
  by_cases hk : k2 = k
  · rw [hk]
    exact (countKey_upsert_self k v m (h k)).le
  · rw [countKey_upsert_ne k k2 v m hk]
    exact h k2

theorem two_le_countKey (k : String) (a b : α) (m : List (String × α))
    (ha : (k, a) ∈ m) (hb : (k, b) ∈ m) (hab : a ≠ b) :
    2 ≤ countKey k m := by
  induction m with
  | nil => simp at ha
  | cons p rest ih =>
    rcases List.mem_cons.mp ha with h1 | h1
    · have hbr : (k, b) ∈ rest := by
        rcases List.mem_cons.mp hb with h2 | h2
        · exfalso
          have heq : (k, a) = (k, b) := h1.trans h2.symm
          simp at heq
          exact hab heq
        · exact h2
      have hcb := countKey_pos_of_mem k b rest hbr
      rw [← h1]
      simp only [countKey]
      simp
      omega
    · rcases List.mem_cons.mp hb with h2 | h2
      · have hca := countKey_pos_of_mem k a rest h1
        rw [← h2]
        simp only [countKey]
        simp
        omega
      · have hboth := ih h1 h2
        by_cases hp : p.1 = k
        · simp only [countKey, if_pos hp]
          omega
        · simp only [countKey, if_neg hp]
          omega

theorem countKey_remap_foldl_le_one (answers : List (String × String))
    (acc : List (String × String)) (h : ∀ k, countKey k acc ≤ 1) :
    ∀ k, countKey k (answers.foldl remapStep acc) ≤ 1 := by
  induction answers generalizing acc with
  | nil => exact h
  | cons p rest ih =>
    intro k
    have hstep : ∀ k3, countKey k3 (remapStep acc p) ≤ 1 := by
      intro k3
      exact countKey_upsert_le_one p.2 k3 p.1 acc h
    simpa [List.foldl] using ih (remapStep acc p) hstep k

theorem countKey_remap_foldl_stay (answers : List (String × String))
    (acc : List (String × String)) (t : String)
    (hwf : ∀ k, countKey k acc ≤ 1) (h1 : countKey t acc = 1) :
    countKey t (answers.foldl remapStep acc) = 1 := by
  induction answers generalizing acc with
  | nil => exact h1
  | cons p rest ih =>
    have hwf2 : ∀ k3, countKey k3 (remapStep acc p) ≤ 1 := by
      intro k3
      exact countKey_upsert_le_one p.2 k3 p.1 acc hwf
    have hstay : countKey t (remapStep acc p) = 1 := by
      by_cases hp : t = p.2
      · rw [remapStep, hp]
        exact countKey_upsert_self p.2 p.1 acc (hwf p.2)
      · rw [remapStep, countKey_upsert_ne p.2 t p.1 acc hp]
        exact h1
    simpa [List.foldl] using ih (remapStep acc p) hwf2 hstay

theorem countKey_remap_foldl_of_mem (answers : List (String × String))
    (acc : List (String × String)) (q t : String)
    (hwf : ∀ k, countKey k acc ≤ 1) (hmem : (q, t) ∈ answers) :
    countKey t (answers.foldl remapStep acc) = 1 := by
  induction answers generalizing acc with
  | nil => simp at hmem
  | cons p rest ih =>
    have hwf2 : ∀ k3, countKey k3 (remapStep acc p) ≤ 1 := by
      intro k3
      exact countKey_upsert_le_one p.2 k3 p.1 acc hwf
    rcases List.mem_cons.mp hmem with h1 | h1
    · have hkey : p.2 = t := by rw [← h1]
      have hone : countKey t (remapStep acc p) = 1 := by
        rw [remapStep, hkey]
        exact countKey_upsert_self t p.1 acc (hwf t)
      simpa [List.foldl] using
        countKey_remap_foldl_stay rest (remapStep acc p) t hwf2 hone
    · simpa [List.foldl] using ih (remapStep acc p) hwf2 h1

theorem splitSlash_ne_nil (l : List Char) : splitSlash l ≠ [] := by
  cases l with
  | nil => simp [splitSlash]
  | cons c rest =>
    simp only [splitSlash]
    cases h : splitSlash rest with
    | nil => simp
    | cons s ss => by_cases hc : c = '/' <;> simp [hc]

theorem splitSlash_no_slash (t : List Char) (h : '/' ∉ t) :
    splitSlash t = [t] := by
  induction t with
  | nil => simp [splitSlash]
  | cons c rest ih =>
    have hc : ¬ (c = '/') := fun hh => h (hh ▸ List.mem_cons_self c rest)
    have hrest : '/' ∉ rest := fun hh => h (List.mem_cons_of_mem c hh)
    simp [splitSlash, ih hrest, hc]

theorem splitSlash_append (t rest : List Char) (h : '/' ∉ t) :
    splitSlash (t ++ '/' :: rest) = t :: splitSlash rest := by
  induction t with
  | nil =>
    simp only [List.nil_append, splitSlash]
    cases hr : splitSlash rest with
    | nil => exact absurd hr (splitSlash_ne_nil rest)
    | cons s ss => simp
  | cons c t2 ih =>
    have hc : ¬ (c = '/') := fun hh => h (hh ▸ List.mem_cons_self c t2)
    have ht2 : '/' ∉ t2 := fun hh => h (List.mem_cons_of_mem c hh)
    simp only [List.cons_append, splitSlash, List.append_eq]
    rw [ih ht2]
    simp [hc]

theorem splitSlash_topicFor (t : List Char) (h : '/' ∉ t) :
    splitSlash (topicFor t) =
      [String.toList ("robot"), t, String.toList ("stats")] := by
  rw [topicFor, splitSlash_append (String.toList ("robot")) _ (by decide),
    splitSlash_append t _ h, splitSlash_no_slash _ (by decide)]

/-- Claim C1 (refuted by the code — the claim states decode failure
leaves the sink state for the team unchanged).  This theorem evaluates
`mqttCallback` at the failing input: team 7 has previously reported
RSSI 80, then a malformed payload arrives on `robot/7/stats`.  The
handler logs the unmarshal error but does not return, so it overwrites
every gauge for team 7 from the zero-valued report: the RSSI series
drops from 80 to 0, and the handler result is exactly an
`observeAll` of the zero report — not the untouched state. -/
theorem malformed_payload_overwrites_sink :
    lookup ("7") (observeAll emptyMetrics ("7") sampleReport).robotRSSI = some 80 ∧
    lookup ("7")
        ((mqttCallback (observeAll emptyMetrics ("7") sampleReport)
            (String.toList ("robot/7/stats")) UnmarshalResult.err).getD
          emptyMetrics).robotRSSI = some 0 ∧
    lookup ("7")
        ((mqttCallback (observeAll emptyMetrics ("7") sampleReport)
            (String.toList ("robot/7/stats")) UnmarshalResult.err).getD
          emptyMetrics).robotWatchdogOK = some 0 ∧
    lookup ("7") (observeAll emptyMetrics ("7") sampleReport).robotWatchdogOK = some 1 := by
  refine ⟨by decide, ?_, ?_, by decide⟩ <;> decide

/-- Claim C2: the immediate-remap client inverts the per-quadrant
answers into a team-keyed map, so when two distinct quadrants answer
the same team number the posted mapping holds exactly one entry for
that team and at least one of the two quadrant assignments is
silently dropped. -/
theorem remap_inversion_drops_duplicate_team
    (answers : List (String × String)) (q1 q2 t : String)
    (hq : q1 ≠ q2) (h1 : (q1, t) ∈ answers) (_h2 : (q2, t) ∈ answers) :
    countKey t (invertAnswers answers) = 1 ∧
      ((t, q1) ∉ invertAnswers answers ∨ (t, q2) ∉ invertAnswers answers) := by
  have hwf : ∀ k, countKey k ([] : List (String × String)) ≤ 1 := by
    intro k
    simp [countKey]
  have hcount : countKey t (invertAnswers answers) = 1 :=
    countKey_remap_foldl_of_mem answers [] q1 t hwf h1
  refine ⟨hcount, ?_⟩
  by_contra hcon
  push_neg at hcon
  obtain ⟨m1, m2⟩ := hcon
  have htwo : 2 ≤ countKey t (invertAnswers answers) :=
    two_le_countKey t q1 q2 (invertAnswers answers) m1 m2 hq
  omega

/-- Witness for claim C2 at a concrete input: quadrants NE and SW both
answered team 100. -/
theorem remap_inversion_drops_duplicate_team_check :
    (("NE") : String) ≠ ("SW") ∧
    ((("NE"), ("100")) ∈ ([(("NE"), ("100")), (("SW"), ("100"))] : List (String × String))) ∧
    ((("SW"), ("100")) ∈ ([(("NE"), ("100")), (("SW"), ("100"))] : List (String × String))) ∧
    (countKey ("100") (invertAnswers [(("NE"), ("100")), (("SW"), ("100"))]) = 1 ∧
      ((("100"), ("NE")) ∉ invertAnswers [(("NE"), ("100")), (("SW"), ("100"))] ∨
       (("100"), ("SW")) ∉ invertAnswers [(("NE"), ("100")), (("SW"), ("100"))])) :=
  ⟨by decide, by decide, by decide,
    remap_inversion_drops_duplicate_team
      [(("NE"), ("100")), (("SW"), ("100"))] ("NE") ("SW") ("100")
      (by decide) (by decide) (by decide)⟩

/-- Claim C3: every boolean telemetry field reaches its gauge family
through `fCast`, which writes exactly 0 for `false` and exactly 1 for
`true`; the six boolean families of the sink-write stage hold exactly
those values for the reported team, and no other value is possible. -/
theorem boolean_fields_map_to_zero_one (m : MetricsState) (team : String)
    (r : report) :
    (∀ b : Bool, fCast b = if b then 1 else 0) ∧
    (∀ b : Bool, fCast b = 0 ∨ fCast b = 1) ∧
    lookup team (observeAll m team r).robotPowerBoard = some (fCast r.pwrBoard) ∧
    lookup team (observeAll m team r).robotPowerPico = some (fCast r.pwrPico) ∧
    lookup team (observeAll m team r).robotPowerGpio = some (fCast r.pwrGpio) ∧
    lookup team (observeAll m team r).robotPowerBusA = some (fCast r.pwrMainA) ∧
    lookup team (observeAll m team r).robotPowerBusB = some (fCast r.pwrMainB) ∧
    lookup team (observeAll m team r).robotWatchdogOK = some (fCast r.watchdogOK) := by
  refine ⟨fun b => rfl, fun b => ?_, ?_, ?_, ?_, ?_, ?_, ?_⟩
  · cases b
    · exact Or.inl rfl
    · exact Or.inr rfl
  all_goals simp [observeAll, lookup_upsert_self]

/-- Claim C4, as stated, fails on the code: the `GaugeOpts` carry
namespace `best` and subsystem `robot`, so the registered family names
carry a `best_` prefix; no family named `robot_rssi` exists. -/
theorem registry_has_no_plain_robot_rssi_family :
    ¬ (("robot_rssi") ∈ List.map Prod.fst newFamilies) := by decide

/-- Claim C4 as amended: the registry built by `New` registers exactly
nine gauge families, named `best_robot_rssi`,
`best_robot_battery_voltage`, `best_robot_power_board`,
`best_robot_power_pico`, `best_robot_power_gpio`,
`best_robot_power_bus_a`, `best_robot_power_bus_b`,
`best_robot_watchdog_ok` and
`best_robot_watchdog_remaining_milliseconds`, each labeled solely by
`team`. -/
theorem registry_exposes_best_robot_families :
    List.map Prod.fst newFamilies =
      [("best_robot_rssi"), ("best_robot_battery_voltage"),
       ("best_robot_power_board"), ("best_robot_power_pico"),
       ("best_robot_power_gpio"), ("best_robot_power_bus_a"),
       ("best_robot_power_bus_b"), ("best_robot_watchdog_ok"),
       ("best_robot_watchdog_remaining_milliseconds")] ∧
    (newFamilies.all fun f => f.2 == [("team")]) = true := by
  refine ⟨by decide, by decide⟩

/-- Claim C5: after any sequence of observe calls,
`ResetRobotMetrics` returns the registry to the fresh state, so a
snapshot taken after the reset and before any further observe shows no
series for any team in any of the nine families. -/
theorem reset_clears_every_team (calls : List (String × report))
    (team : String) :
    resetRobotMetrics (applyObserves calls) = emptyMetrics ∧
    lookup team (resetRobotMetrics (applyObserves calls)).robotRSSI = none ∧
    lookup team (resetRobotMetrics (applyObserves calls)).robotVBat = none ∧
    lookup team (resetRobotMetrics (applyObserves calls)).robotPowerBoard = none ∧
    lookup team (resetRobotMetrics (applyObserves calls)).robotPowerPico = none ∧
    lookup team (resetRobotMetrics (applyObserves calls)).robotPowerGpio = none ∧
    lookup team (resetRobotMetrics (applyObserves calls)).robotPowerBusA = none ∧
    lookup team (resetRobotMetrics (applyObserves calls)).robotPowerBusB = none ∧
    lookup team (resetRobotMetrics (applyObserves calls)).robotWatchdogOK = none ∧
    lookup team (resetRobotMetrics (applyObserves calls)).robotWatchdogLifetime = none :=
  ⟨rfl, rfl, rfl, rfl, rfl, rfl, rfl, rfl, rfl, rfl⟩

/-- Claim C6: `MQTTInit` signals the startup coordinator (`wg.Done()`)
at most once, it signals exactly when the connect succeeded and the
backoff retry reached a successful subscription, and it never signals
on any error return — across the whole call there is no second
signal. -/
theorem ready_signal_exactly_once (broker : String) (connectOK : Bool)
    (subAttempts : List Bool) :
    (MQTTInit broker connectOK subAttempts).doneSignals ≤ 1 ∧
    (MQTTInit broker connectOK subAttempts).doneSignals =
      (if connectOK && retrySubscribe subAttempts then 1 else 0) ∧
    ((MQTTInit broker connectOK subAttempts).doneSignals = 0 ∨
      (MQTTInit broker connectOK subAttempts).errOut = none) := by
  cases connectOK <;> cases hh : retrySubscribe subAttempts <;>
    simp [MQTTInit, hh]

/-- Claim C7: the client options configured by `MQTTInit` always have
auto-reconnect and connect-retry enabled, and the distinguished
connect failure is returned to the caller exactly when the first
`client.Connect()` attempt fails. -/
theorem connect_error_iff_first_connect_fails (broker : String)
    (connectOK : Bool) (subAttempts : List Bool) :
    (MQTTInit broker connectOK subAttempts).opts.autoReconnect = true ∧
    (MQTTInit broker connectOK subAttempts).opts.connectRetry = true ∧
    ((MQTTInit broker connectOK subAttempts).errOut = some InitErr.connectFailed ↔
      connectOK = false) := by
  cases connectOK <;> cases hh : retrySubscribe subAttempts <;>
    simp [MQTTInit, mqttInitOptions, newClientOptions, hh,
      ClientOptions.addBroker, ClientOptions.setAutoReconnect,
      ClientOptions.setClientID, ClientOptions.setConnectRetry,
      ClientOptions.setConnectTimeoutSec,
      ClientOptions.setConnectRetryIntervalSec]

/-- Claim C8: on a topic of the form `robot/<teamID>/stats` the split
has three segments, index 1 is in range and yields exactly the teamID
segment, and the handler runs without faulting (it returns a state
rather than the panic marker `none`). -/
theorem stats_topic_team_extraction (m : MetricsState)
    (payload : UnmarshalResult) (t : List Char) (h : '/' ∉ t) :
    teamSegment (topicFor t) = some t ∧
    (mqttCallback m (topicFor t) payload).isSome = true := by
  have hseg : teamSegment (topicFor t) = some t := by
    rw [teamSegment, splitSlash_topicFor t h]
    rfl
  refine ⟨hseg, ?_⟩
  rw [mqttCallback, hseg]
  rfl

/-- Witness for claim C8 at the concrete topic `robot/42/stats`. -/
theorem stats_topic_team_extraction_check :
    '/' ∉ String.toList ("42") ∧
    (teamSegment (topicFor (String.toList ("42"))) = some (String.toList ("42")) ∧
      (mqttCallback emptyMetrics (topicFor (String.toList ("42")))
        UnmarshalResult.err).isSome = true) :=
  ⟨by decide,
    stats_topic_team_extraction emptyMetrics UnmarshalResult.err
      (String.toList ("42")) (by decide)⟩

/-- Claim C9: `GetState` on a fieldID with no bound controller returns
the distinguished `ErrNoSuchField` — no crash, no zero-valued
`Values`. -/
theorem getstate_unknown_field_is_no_such_field (j : JSController)
    (fieldID : String) (h : lookup fieldID j.controllers = none) :
    j.GetState fieldID = Except.error GSErr.noSuchField := by
  rw [JSController.GetState, h]

/-- Witness for claim C9: a fresh controller with nothing bound. -/
theorem getstate_unknown_field_is_no_such_field_check :
    lookup ("field1") NewJSController.controllers = none ∧
    NewJSController.GetState ("field1") = Except.error GSErr.noSuchField :=
  ⟨rfl, getstate_unknown_field_is_no_such_field NewJSController ("field1") rfl⟩

/-- Claim C10: `BindController` stores the opened handle under the name
before validating the axis/button counts, so when validation fails the
error return leaves the controller bound: the map holds the handle and
a subsequent `GetState` for the name does not return
`ErrNoSuchField`. -/
theorem bind_validation_failure_leaves_controller_bound
    (j : JSController) (name : String) (js : Joystick)
    (h : (js.axisCount != 6 || js.buttonCount != 12) = true) :
    (j.BindController name (some js)).2 = some BindErr.badConfig ∧
    lookup name (j.BindController name (some js)).1.controllers = some js ∧
    (j.BindController name (some js)).1.GetState name ≠
      Except.error GSErr.noSuchField := by
  have hb : j.BindController name (some js) =
      ({ j with controllers := upsert name js j.controllers },
        some BindErr.badConfig) := by
    simp [JSController.BindController, h]
  refine ⟨by rw [hb], ?_, ?_⟩
  · rw [hb]
    exact lookup_upsert_self name js j.controllers
  · rw [hb]
    simp only [JSController.GetState, lookup_upsert_self]
    cases js.readResult <;> simp

/-- Witness for claim C10: a handle advertising 5 axes fails
validation yet stays bound under the name. -/
theorem bind_validation_failure_leaves_controller_bound_check :
    (((⟨5, 12, none⟩ : Joystick).axisCount != 6) ||
      ((⟨5, 12, none⟩ : Joystick).buttonCount != 12)) = true ∧
    ((NewJSController.BindController ("q") (some ⟨5, 12, none⟩)).2 =
        some BindErr.badConfig ∧
      lookup ("q") (NewJSController.BindController ("q")
          (some ⟨5, 12, none⟩)).1.controllers = some ⟨5, 12, none⟩ ∧
      (NewJSController.BindController ("q")
          (some ⟨5, 12, none⟩)).1.GetState ("q") ≠
        Except.error GSErr.noSuchField) :=
  ⟨by decide,
    bind_validation_failure_leaves_controller_bound NewJSController ("q")
      ⟨5, 12, none⟩ (by decide)⟩

end Gizmo
